import Mathlib

/-!
Shallow embedding of the Mednix drug-information RAG pipeline
(`src/rag_pipeline.py` and the `/query` handler of `src/main.py`).

External dependencies (the OpenAI embedding and chat-completion calls, the
faiss nearest-neighbor search, the pandas metadata table) are modelled as an
explicit environment `Env` of oracles.  Fallible remote calls return
`Except String` values; a Python exception becomes an `Except.error` carrying
the error message.  The per-attempt oracles (`embedAttempt`, `llmAttempt`)
take an attempt counter so that the tenacity retry decorator can be modelled
faithfully.  Distances are modelled as `Rat` (they are only carried through,
never computed with), and embedding vectors as `List Rat`.
-/

deriving instance DecidableEq for Except

namespace Mednix

/-- Embedding vector, modelling the numpy float32 array returned by the
embedding call.  The pipeline never inspects its entries, it only hands the
vector to the nearest-neighbor search. -/
abbrev Emb := List Rat

/-- One row of the pandas metadata table `_metadata`.  `row.get(col)` returns
`None` when the column is missing, hence the `Option` fields; `chunk_index`
is `none` when the `chunk_index` column is absent (the code then stores
Python `None`). -/
structure MetaRow where
  drug_name : Option String
  drugbank_id : Option String
  chunk_index : Option Int
  chunk_text : Option String
deriving Inhabited, Repr, DecidableEq

/-- One retrieved chunk: the dict literal built in `retrieve_chunks` with the
five keys drug_name, drugbank_id, chunk_index, text, distance. -/
structure Chunk where
  drug_name : Option String
  drugbank_id : Option String
  chunk_index : Option Int
  text : Option String
  distance : Rat
deriving Inhabited, Repr, DecidableEq

/-- One trace entry of `query_pipeline`: the dict
`{"sub_query": sq, "answer": answer, "chunks": chunks}`. -/
structure SubAnswer where
  sub_query : String
  answer : String
  chunks : List Chunk
deriving Inhabited, Repr, DecidableEq

/-- Environment of external oracles.  `embedAttempt text i` is the outcome of
the `i`-th attempt (0-based) of the raw OpenAI embedding call for `text`;
`llmAttempt prompt model temperature i` likewise for the raw chat-completion
call; `search emb k` is the faiss `_index.search` call returning the zipped
`(row_index, distance)` pairs of `zip(indices[0], distances[0])` (faiss uses
`-1` row indices for missing results, hence `Int`); `metadata` is the
row-indexed metadata table `_metadata`. -/
structure Env where
  embedAttempt : String → Nat → Except String Emb
  llmAttempt : String → String → Rat → Nat → Except String String
  search : Emb → Nat → Except String (List (Int × Rat))
  metadata : List MetaRow

/-- Default of the `EMBEDDING_MODEL` environment variable. -/
def EMBEDDING_MODEL : String := "text-embedding-3-large"

/-- Default of the `DECOMPOSE_MODEL` environment variable. -/
def DECOMPOSE_MODEL : String := "gpt-4o-mini"

/-- Default of the `ANSWER_MODEL` environment variable. -/
def ANSWER_MODEL : String := "gpt-4o-mini"

/-- Python `str.strip()`: remove leading and trailing whitespace.  Modelled
structurally over the character list so that it evaluates in the kernel. -/
def pyStrip (s : String) : String :=
  ⟨((s.data.dropWhile Char.isWhitespace).reverse.dropWhile Char.isWhitespace).reverse⟩

/-- Helper of `pySplitLines`: split a character list at newline characters,
accumulating the current line in reverse. -/
def splitLinesAux : List Char → List Char → List String
  | [], acc => [⟨acc.reverse⟩]
  | c :: cs, acc =>
    if c = '\n' then ⟨acc.reverse⟩ :: splitLinesAux cs [] else splitLinesAux cs (c :: acc)

/-- Python `str.splitlines()` as used by `decompose_query`: split the text at
line boundaries.  Every fragment is afterwards stripped and blank fragments
are discarded, so the remaining differences to CPython (treatment of a
trailing newline and of exotic line separators) are invisible. -/
def pySplitLines (s : String) : List String :=
  splitLinesAux s.data []

/-- Retry loop of the tenacity decorator: `f i` is the outcome of attempt
number `i` (0-based); `fuel` is the number of retries still allowed after the
current attempt.  On success the result is returned at once; when the fuel is
exhausted the outcome of the final attempt — success or error — is returned
as-is, modelling `reraise=True` (the last error is re-raised). -/
def retryLoop {α : Type} (f : Nat → Except String α) : Nat → Nat → Except String α
  | i, 0 => f i
  | i, fuel + 1 =>
    match f i with
    | .ok a => .ok a
    | .error _ => retryLoop f (i + 1) fuel

/-- The module-level `retry_decorator`:
`retry(reraise=True, wait=wait_exponential(...), stop=stop_after_attempt(5),
retry=retry_if_exception_type(Exception))`.  Every exception kind is
retryable; at most 5 attempts are made (attempt indices 0 to 4).  The
exponential backoff only controls wall-clock delays between attempts and has
no effect on the returned value, so it is not part of the functional model. -/
def retry_decorator {α : Type} (f : Nat → Except String α) : Except String α :=
  retryLoop f 0 4

/-- Function `_create_embedding` of `src/rag_pipeline.py`: the raw embedding
call under `retry_decorator`.  The numpy conversion
`np.array(..., dtype="float32")` is the identity in this model. -/
def _create_embedding (env : Env) (text : String) : Except String Emb :=
  retry_decorator (fun i => env.embedAttempt text i)

/-- Function `_llm_chat_completion` of `src/rag_pipeline.py`: the raw chat
completion under `retry_decorator`; on success the content string is stripped
(`.strip()`, modelled by `String.trim`) inside the attempt body. -/
def _llm_chat_completion (env : Env) (prompt model : String) (temperature : Rat) :
    Except String String :=
  retry_decorator (fun i =>
    match env.llmAttempt prompt model temperature i with
    | .ok s => .ok (pyStrip s)
    | .error e => .error e)

/-- The decomposition prompt f-string of `decompose_query`. -/
def decomposePrompt (user_query : String) (max_subqueries : Nat) : String :=
  "\nYou are an expert in drug information. Split the following user query into up to "
    ++ toString max_subqueries
    ++ " independent sub-questions.\nReturn each sub-question on a separate line.\n\nUser query: \""
    ++ user_query ++ "\"\n"

/-- The list comprehension
`[q.strip() for q in text.splitlines() if q.strip()]`: split on line
boundaries, strip each line, keep the non-blank ones. -/
def cleanLines (text : String) : List String :=
  ((pySplitLines text).map pyStrip).filter (fun s => s ≠ "")

/-- Function `decompose_query` of `src/rag_pipeline.py`.  On any generation
failure the original query is the sole sub-question; likewise when the
generated text has no non-blank lines (`sub_queries or [user_query]`). -/
def decompose_query (env : Env) (user_query : String) (max_subqueries : Nat) :
    List String :=
  match _llm_chat_completion env (decomposePrompt user_query max_subqueries)
      DECOMPOSE_MODEL 0 with
  | .ok text =>
    let sub_queries := cleanLines text
    if sub_queries.isEmpty then [user_query] else sub_queries
  | .error _ => [user_query]

/-- Projection of one metadata row (at a known in-range position `i`) and its
distance into the result dict of `retrieve_chunks`. -/
def projectChunk (metadata : List MetaRow) (i : Nat) (dist : Rat) : Chunk :=
  let row := metadata.getD i default
  { drug_name := row.drug_name
    drugbank_id := row.drugbank_id
    chunk_index := row.chunk_index
    text := row.chunk_text
    distance := dist }

/-- The result-building loop of `retrieve_chunks`: for each
`(idx, dist)` pair of the search output, rows with `idx < 0` or
`idx >= len(_metadata)` are skipped (`continue`), the rest are projected in
order. -/
def projectRows (metadata : List MetaRow) : List (Int × Rat) → List Chunk
  | [] => []
  | (idx, dist) :: rest =>
    if idx < 0 ∨ (metadata.length : Int) ≤ idx then
      projectRows metadata rest
    else
      projectChunk metadata idx.toNat dist :: projectRows metadata rest

/-- Function `retrieve_chunks` of `src/rag_pipeline.py`.  Only the embedding
call is inside the `try` block: an embedding failure yields `[]`, while an
exception of the faiss search propagates to the caller (`Except.error`). -/
def retrieve_chunks (env : Env) (query_text : String) (top_k : Nat) :
    Except String (List Chunk) :=
  match _create_embedding env query_text with
  | .error _ => .ok []
  | .ok emb =>
    match env.search emb top_k with
    | .error e => .error e
    | .ok pairs => .ok (projectRows env.metadata pairs)

/-- Rendering of an optional value inside a Python f-string: `None` prints as
"None". -/
def optText : Option String → String
  | some s => s
  | none => "None"

/-- The answering prompt of `generate_answer`, embedding every chunk text
verbatim, joined by blank lines. -/
def answerPrompt (sub_query : String) (chunks : List Chunk) : String :=
  let prompt_chunks :=
    String.intercalate "\n\n" (chunks.map (fun c => "Chunk: " ++ optText c.text))
  "\nYou are a medical expert. Answer the question below using ONLY the information from the retrieved chunks.\nDo not make assumptions or hallucinate. Be concise and precise.\n\n"
    ++ prompt_chunks ++ "\n\nQuestion: " ++ sub_query ++ "\nAnswer:\n"

/-- Function `generate_answer` of `src/rag_pipeline.py`.  With no chunks it
returns the fixed sentinel before any generation call; otherwise a generation
failure is absorbed into the error sentinel. -/
def generate_answer (env : Env) (sub_query : String) (chunks : List Chunk) :
    String :=
  if chunks.isEmpty then "No relevant information found."
  else
    match _llm_chat_completion env (answerPrompt sub_query chunks) ANSWER_MODEL 0 with
    | .ok t => t
    | .error _ => "Error generating answer."

/-- The numbered list `"\n".join(f"(i+1). (answer)")` of `combine_answers`. -/
def numberedAnswers (sub_query_answers : List SubAnswer) : String :=
  String.intercalate "\n"
    (sub_query_answers.enum.map (fun p => toString (p.1 + 1) ++ ". " ++ p.2.answer))

/-- The combination prompt of `combine_answers`. -/
def combinePrompt (user_query : String) (sub_query_answers : List SubAnswer) :
    String :=
  "\nYou are a medical expert. The user asked the following question:\n\n"
    ++ user_query ++ "\n\nHere are the answers to sub-questions:\n\n"
    ++ numberedAnswers sub_query_answers
    ++ "\n\nCombine these into a single, concise, coherent answer. Only use the provided information.\nFinal Answer:\n"

/-- Function `combine_answers` of `src/rag_pipeline.py`: generation failure is
absorbed into the final error sentinel. -/
def combine_answers (env : Env) (user_query : String)
    (sub_query_answers : List SubAnswer) : String :=
  match _llm_chat_completion env (combinePrompt user_query sub_query_answers)
      ANSWER_MODEL 0 with
  | .ok t => t
  | .error _ => "Error generating final answer."

/-- The per-sub-question loop of `query_pipeline`: retrieve then answer, one
trace entry per sub-question, in order.  An exception escaping
`retrieve_chunks` (a search failure) aborts the whole loop, as an uncaught
Python exception would. -/
def runSubQueries (env : Env) (top_k : Nat) :
    List String → Except String (List SubAnswer)
  | [] => .ok []
  | sq :: rest =>
    match retrieve_chunks env sq top_k with
    | .error e => .error e
    | .ok chunks =>
      match runSubQueries env top_k rest with
      | .error e => .error e
      | .ok tail =>
        .ok ({ sub_query := sq, answer := generate_answer env sq chunks,
               chunks := chunks } :: tail)

/-- Function `query_pipeline` of `src/rag_pipeline.py`: decompose once, loop
over the sub-questions, combine at the end.  The `Except` layer carries any
uncaught exception (only a search failure inside `retrieve_chunks` can raise
in this model). -/
def query_pipeline (env : Env) (user_query : String) (top_k max_subqueries : Nat) :
    Except String (String × List SubAnswer) :=
  match runSubQueries env top_k (decompose_query env user_query max_subqueries) with
  | .error e => .error e
  | .ok answers => .ok (combine_answers env user_query answers, answers)

/-- Body of the `/query` request model `QueryRequest` of `src/main.py`
(defaults `top_k=3`, `max_subqueries=5` are applied by the transport layer). -/
structure QueryRequest where
  query : String
  top_k : Nat
  max_subqueries : Nat

/-- Outcome of the `/query` handler: either an `HTTPException` raised by the
handler itself, or an uncaught pipeline exception, or the response body
`{"query": ..., "final_answer": ...}`. -/
inductive HandlerError where
  | httpError (status : Nat) (detail : String)
  | internalError (e : String)
deriving Repr, DecidableEq

/-- The first-registered handler `query` for `POST /query` in `src/main.py`
(FastAPI dispatches to the first route registered for a path and method, so
the later duplicate `query_endpoint` registration is dead code).  Blank
queries (`not request.query or not request.query.strip()`) are rejected with
HTTP 400 before the pipeline is invoked. -/
def queryHandler (env : Env) (req : QueryRequest) :
    Except HandlerError (String × String) :=
  if req.query = "" ∨ pyStrip req.query = "" then
    .error (.httpError 400 "`query` must be a non-empty string.")
  else
    match query_pipeline env req.query req.top_k req.max_subqueries with
    | .ok (final_answer, _) => .ok (req.query, final_answer)
    | .error e => .error (.internalError e)

/-- The chunk list retrieved for a sub-question when retrieval does not
raise (used to state the trace structure of `query_pipeline`). -/
def retrievedChunks (env : Env) (sq : String) (top_k : Nat) : List Chunk :=
  match retrieve_chunks env sq top_k with
  | .ok l => l
  | .error _ => []

/-- The trace entry `{"sub_query": sq, "answer": ..., "chunks": ...}` that
`query_pipeline` appends for the sub-question `sq`. -/
def traceEntry (env : Env) (top_k : Nat) (sq : String) : SubAnswer :=
  { sub_query := sq
    answer := generate_answer env sq (retrievedChunks env sq top_k)
    chunks := retrievedChunks env sq top_k }

/-- Attempt sequence failing four times then succeeding on the fifth. -/
def attemptsFourFailures : Nat → Except String Nat :=
  fun i => if i < 4 then .error ("fail " ++ toString i) else .ok 42

/-- Attempt sequence failing on every attempt. -/
def attemptsAllFail : Nat → Except String Nat :=
  fun i => .error ("fail " ++ toString i)

/-! Concrete environments used by counterexamples and witnesses. -/

/-- Environment whose nearest-neighbor search always raises while the remote
model calls succeed (the decomposition model returns two sub-questions). -/
def envSearchFail : Env :=
  { embedAttempt := fun _ _ => .ok [1]
    llmAttempt := fun _ _ _ _ => .ok "a\nb"
    search := fun _ _ => .error "search failed"
    metadata := [] }

/-- Environment whose embedding call fails on every attempt. -/
def envEmbedFail : Env :=
  { embedAttempt := fun _ _ => .error "embed failed"
    llmAttempt := fun _ _ _ _ => .ok "sub-question"
    search := fun _ _ => .ok []
    metadata := [] }

/-- Environment whose chat-completion call fails on every attempt. -/
def envLLMFail : Env :=
  { embedAttempt := fun _ _ => .ok [1]
    llmAttempt := fun _ _ _ _ => .error "llm failed"
    search := fun _ _ => .ok []
    metadata := [] }

/-- Environment where every external call succeeds. -/
def envOk : Env :=
  { embedAttempt := fun _ _ => .ok [1]
    llmAttempt := fun _ _ _ _ => .ok "sub-question"
    search := fun _ _ => .ok []
    metadata := [] }

/-- Environment whose decomposition model returns three lines, more than the
requested maximum of two sub-questions. -/
def envThreeLines : Env :=
  { embedAttempt := fun _ _ => .ok [1]
    llmAttempt := fun _ _ _ _ => .ok "a\nb\nc"
    search := fun _ _ => .ok []
    metadata := [] }

/-- A metadata table with ten identical rows. -/
def sampleMeta : List MetaRow :=
  List.replicate 10 ⟨some "ibuprofen", some "DB01050", some 0, some "chunk text"⟩

/-- Environment with ten metadata rows whose search returns one out-of-range
row index (15) and one valid one (2). -/
def envRange : Env :=
  { embedAttempt := fun _ _ => .ok [1]
    llmAttempt := fun _ _ _ _ => .ok "sub-question"
    search := fun _ _ => .ok [(15, 1), (2, 2)]
    metadata := sampleMeta }

/-! Claim theorems. -/

/-- Claim C4: with an empty chunk list, `generate_answer` returns the fixed
sentinel "No relevant information found.".  The equation holds for every
environment `env`, so the result does not depend on the generation oracle:
the Generation Client is not invoked at all. -/
theorem generate_answer_empty_chunks_sentinel (env : Env) (sub_query : String) :
    generate_answer env sub_query [] = "No relevant information found." := rfl

/-- Claim C3: for every non-empty query, `decompose_query` returns a
non-empty list; if the generation call fails, or the generated text has no
non-blank lines, the result is exactly the singleton of the original
query. -/
theorem decompose_query_nonempty_and_fallback (env : Env) (q : String) (m : Nat)
    (hq : q ≠ "") :
    decompose_query env q m ≠ [] ∧
    (∀ e, _llm_chat_completion env (decomposePrompt q m) DECOMPOSE_MODEL 0 = .error e →
      decompose_query env q m = [q]) ∧
    (∀ t, _llm_chat_completion env (decomposePrompt q m) DECOMPOSE_MODEL 0 = .ok t →
      cleanLines t = [] → decompose_query env q m = [q]) := by
  refine ⟨?_, ?_, ?_⟩
  · unfold decompose_query
    cases h : _llm_chat_completion env (decomposePrompt q m) DECOMPOSE_MODEL 0 with
    | error e => simp
    | ok t =>
      by_cases hc : (cleanLines t).isEmpty
      · simp [hc]
      · simp only [hc, if_false, Bool.false_eq_true]
        simpa [List.isEmpty_iff] using hc
  · intro e he
    unfold decompose_query
    rw [he]
  · intro t ht hlines
    unfold decompose_query
    rw [ht]
    simp [hlines]

/-- Witness for C3 at a concrete environment whose generation call fails on
all five attempts. -/
theorem decompose_query_nonempty_and_fallback_witness :
    decompose_query envLLMFail "what is aspirin" 5 ≠ [] ∧
    decompose_query envLLMFail "what is aspirin" 5 = ["what is aspirin"] := by
  have h := decompose_query_nonempty_and_fallback envLLMFail "what is aspirin" 5
    (by decide)
  exact ⟨h.1, h.2.1 "llm failed" rfl⟩

/-- Counterexample for C8: with `max_subqueries = 2` and a generation result
of three non-blank lines, `decompose_query` returns three sub-questions —
the code never truncates to `max_subqueries`. -/
theorem decompose_query_exceeds_max :
    decompose_query envThreeLines "q" 2 = ["a", "b", "c"] ∧
    ¬ ((decompose_query envThreeLines "q" 2).length ≤ 2) := by
  refine ⟨by decide, by decide⟩

/-- Claim C8 (amended): `max_subqueries` only parameterizes the prompt text;
the number of returned sub-questions equals the number of non-blank lines of
the generated text when that is positive, and 1 otherwise (fallback to the
original query), with no truncation to `max_subqueries`. -/
theorem decompose_query_length_characterization (env : Env) (q : String) (m : Nat) :
    (decompose_query env q m).length =
      match _llm_chat_completion env (decomposePrompt q m) DECOMPOSE_MODEL 0 with
      | .error _ => 1
      | .ok t => max (cleanLines t).length 1 := by
  unfold decompose_query
  cases h : _llm_chat_completion env (decomposePrompt q m) DECOMPOSE_MODEL 0 with
  | error e => simp
  | ok t =>
    by_cases hc : (cleanLines t).isEmpty
    · have hnil : cleanLines t = [] := by simpa [List.isEmpty_iff] using hc
      simp [hc, hnil]
    · have hne : cleanLines t ≠ [] := by simpa [List.isEmpty_iff] using hc
      have hpos : 0 < (cleanLines t).length := List.length_pos.mpr hne
      simp only [hc, if_false, Bool.false_eq_true]
      exact (Nat.max_eq_left hpos).symm

/-- Claim C9: a request whose query is empty or whitespace-only is rejected
with HTTP 400.  The equation holds for every environment, so the pipeline is
never invoked for such a request. -/
theorem query_handler_rejects_blank (env : Env) (req : QueryRequest)
    (h : pyStrip req.query = "") :
    queryHandler env req =
      .error (.httpError 400 "`query` must be a non-empty string.") := by
  unfold queryHandler
  rw [if_pos (Or.inr h)]

/-- Witness for C9 at a concrete whitespace-only request. -/
theorem query_handler_rejects_blank_witness :
    queryHandler envOk ⟨"   ", 3, 5⟩ =
      .error (.httpError 400 "`query` must be a non-empty string.") :=
  query_handler_rejects_blank envOk ⟨"   ", 3, 5⟩ (by decide)

/-! Retry lemmas. -/

/-- If the first `j` attempts starting at index `i` fail and attempt `i + j`
succeeds within the remaining fuel, the loop returns that success. -/
lemma retryLoop_ok_of_first_success {α : Type} (f : Nat → Except String α) :
    ∀ (fuel i j : Nat) (a : α), j ≤ fuel →
      (∀ t, t < j → (f (i + t)).isOk = false) → f (i + j) = .ok a →
      retryLoop f i fuel = .ok a := by
  intro fuel
  induction fuel with
  | zero =>
    intro i j a hj hfail hok
    interval_cases j
    simpa [retryLoop] using hok
  | succ fuel ih =>
    intro i j a hj hfail hok
    cases j with
    | zero =>
      have : f i = .ok a := by simpa using hok
      simp [retryLoop, this]
    | succ j' =>
      have hfail0 : (f i).isOk = false := by simpa using hfail 0 (Nat.succ_pos j')
      cases hfi : f i with
      | ok b => rw [hfi] at hfail0; simp [Except.isOk, Except.toBool] at hfail0
      | error e =>
        have htail : retryLoop f (i + 1) fuel = .ok a := by
          refine ih (i + 1) j' a (Nat.lt_succ_iff.mp hj) ?_ ?_
          · intro t ht
            have h1 := hfail (t + 1) (Nat.succ_lt_succ ht)
            have h2 : i + (t + 1) = i + 1 + t := by omega
            rwa [h2] at h1
          · have h2 : i + (j' + 1) = i + 1 + j' := by omega
            rwa [h2] at hok
        simp [retryLoop, hfi, htail]

/-- If every attempt from index `i` through `i + fuel` fails, the loop
returns the error of the final attempt. -/
lemma retryLoop_error_of_all_fail {α : Type} (f : Nat → Except String α) :
    ∀ (fuel i : Nat) (e : String),
      (∀ t, t < fuel → (f (i + t)).isOk = false) → f (i + fuel) = .error e →
      retryLoop f i fuel = .error e := by
  intro fuel
  induction fuel with
  | zero =>
    intro i e _ hlast
    simpa [retryLoop] using hlast
  | succ fuel ih =>
    intro i e hfail hlast
    have hfail0 : (f i).isOk = false := by simpa using hfail 0 (Nat.succ_pos fuel)
    cases hfi : f i with
    | ok b => rw [hfi] at hfail0; simp [Except.isOk, Except.toBool] at hfail0
    | error e0 =>
      have htail : retryLoop f (i + 1) fuel = .error e := by
        refine ih (i + 1) e ?_ ?_
        · intro t ht
          have h1 := hfail (t + 1) (Nat.succ_lt_succ ht)
          have h2 : i + (t + 1) = i + 1 + t := by omega
          rwa [h2] at h1
        · have h2 : i + (fuel + 1) = i + 1 + fuel := by omega
          rwa [h2] at hlast
      simp [retryLoop, hfi, htail]

/-- Claim C6: the retried remote-call wrappers (`_create_embedding` and
`_llm_chat_completion` are both `retry_decorator` applied to the raw call)
make up to 5 attempts: if the first success lands at attempt `j ≤ 4` (0-based)
after `j` failures, that successful result is returned; if all 5 attempts
fail, the error of the last (5th) attempt is re-raised. -/
theorem retry_decorator_success_and_exhaustion {α : Type} :
    (∀ (f : Nat → Except String α) (j : Nat) (a : α), j ≤ 4 →
        (∀ i, i < j → (f i).isOk = false) → f j = .ok a →
        retry_decorator f = .ok a) ∧
    (∀ (f : Nat → Except String α) (e : String),
        (∀ i, i < 4 → (f i).isOk = false) → f 4 = .error e →
        retry_decorator f = .error e) := by
  constructor
  · intro f j a hj hfail hok
    unfold retry_decorator
    refine retryLoop_ok_of_first_success f 4 0 j a hj ?_ ?_
    · intro t ht
      simpa using hfail t ht
    · simpa using hok
  · intro f e hfail hlast
    unfold retry_decorator
    refine retryLoop_error_of_all_fail f 4 0 e ?_ ?_
    · intro t ht
      simpa using hfail t ht
    · simpa using hlast

/-- Witness for C6: four failures then success on the 5th attempt returns the
success; five failures re-raise the final error. -/
theorem retry_decorator_success_and_exhaustion_witness :
    retry_decorator attemptsFourFailures = .ok 42 ∧
    retry_decorator attemptsAllFail = .error "fail 4" := by
  constructor
  · exact (@retry_decorator_success_and_exhaustion Nat).1 attemptsFourFailures 4 42
      (by decide) (by decide) (by decide)
  · exact (@retry_decorator_success_and_exhaustion Nat).2 attemptsAllFail "fail 4"
      (by decide) (by decide)

/-! Retrieval theorems. -/

/-- Counterexample for C5: with a working embedding call but a raising
nearest-neighbor search, `retrieve_chunks` propagates the search error
instead of returning the empty sequence. -/
theorem retrieve_chunks_search_error_propagates :
    retrieve_chunks envSearchFail "q" 3 = .error "search failed" := rfl

/-- Claim C5 (amended): only a failure of the embedding call is absorbed by
`retrieve_chunks`, which then returns the empty sequence; a failure of the
nearest-neighbor search is outside the `try` block and propagates to the
caller. -/
theorem retrieve_chunks_embed_failure_absorbed (env : Env) (q : String) (k : Nat)
    (e : String) (h : _create_embedding env q = .error e) :
    retrieve_chunks env q k = .ok [] := by
  unfold retrieve_chunks
  rw [h]

/-- Witness for C5 (amended) at an environment whose embedding call fails on
all five attempts. -/
theorem retrieve_chunks_embed_failure_absorbed_witness :
    retrieve_chunks envEmbedFail "q" 3 = .ok [] :=
  retrieve_chunks_embed_failure_absorbed envEmbedFail "q" 3 "embed failed" rfl

/-- Every chunk produced by the projection loop arises from a search pair
whose row index is in range for the metadata table. -/
lemma projectRows_mem_spec (metadata : List MetaRow) :
    ∀ (pairs : List (Int × Rat)) (c : Chunk), c ∈ projectRows metadata pairs →
      ∃ idx dist, (idx, dist) ∈ pairs ∧ 0 ≤ idx ∧ idx.toNat < metadata.length ∧
        c = projectChunk metadata idx.toNat dist := by
  intro pairs
  induction pairs with
  | nil => intro c hc; simp [projectRows] at hc
  | cons p rest ih =>
    intro c hc
    obtain ⟨idx, dist⟩ := p
    unfold projectRows at hc
    by_cases hcond : idx < 0 ∨ (metadata.length : Int) ≤ idx
    · rw [if_pos hcond] at hc
      obtain ⟨i2, d2, hmem, h0, hlt, heq⟩ := ih c hc
      exact ⟨i2, d2, List.mem_cons_of_mem _ hmem, h0, hlt, heq⟩
    · rw [if_neg hcond] at hc
      push_neg at hcond
      rcases List.mem_cons.mp hc with hhead | htail
      · refine ⟨idx, dist, List.mem_cons_self _ _, hcond.1, ?_, hhead⟩
        omega
      · obtain ⟨i2, d2, hmem, h0, hlt, heq⟩ := ih c htail
        exact ⟨i2, d2, List.mem_cons_of_mem _ hmem, h0, hlt, heq⟩

/-- The projection loop never produces more chunks than there are search
pairs. -/
lemma projectRows_length_le (metadata : List MetaRow) :
    ∀ pairs : List (Int × Rat), (projectRows metadata pairs).length ≤ pairs.length := by
  intro pairs
  induction pairs with
  | nil => simp [projectRows]
  | cons p rest ih =>
    obtain ⟨idx, dist⟩ := p
    unfold projectRows
    by_cases hcond : idx < 0 ∨ (metadata.length : Int) ≤ idx
    · rw [if_pos hcond]
      exact Nat.le_succ_of_le ih
    · rw [if_neg hcond]
      simpa using ih

/-- Claim C7: every chunk returned by `retrieve_chunks` is the projection of
a metadata row at a valid position; out-of-range row indices of the search
result are silently dropped, never an error. -/
theorem retrieve_chunks_rows_in_range (env : Env) (q : String) (k : Nat)
    (res : List Chunk) (hres : retrieve_chunks env q k = .ok res) :
    ∀ c ∈ res, ∃ i dist, i < env.metadata.length ∧
      c = projectChunk env.metadata i dist := by
  unfold retrieve_chunks at hres
  cases hemb : _create_embedding env q with
  | error e =>
    simp only [hemb] at hres
    injection hres with hres
    subst hres
    intro c hc
    simp at hc
  | ok emb =>
    simp only [hemb] at hres
    cases hs : env.search emb k with
    | error e =>
      simp only [hs] at hres
      exact Except.noConfusion hres
    | ok pairs =>
      simp only [hs] at hres
      injection hres with hres
      subst hres
      intro c hc
      obtain ⟨idx, dist, _, _, hlt, heq⟩ := projectRows_mem_spec env.metadata pairs c hc
      exact ⟨idx.toNat, dist, hlt, heq⟩

/-- Witness for C7: with ten metadata rows and a search returning row indices
15 (out of range, dropped) and 2 (kept), the retrieved chunk is a projection
of a valid row. -/
theorem retrieve_chunks_rows_in_range_witness :
    ∃ i dist, i < envRange.metadata.length ∧
      projectChunk sampleMeta 2 (2 : Rat) = projectChunk envRange.metadata i dist := by
  have h := retrieve_chunks_rows_in_range envRange "q" 3
    [projectChunk sampleMeta 2 (2 : Rat)] rfl
  exact h _ (List.mem_singleton.mpr rfl)

/-- Claim C10: under the faiss shape contract (at most `top_k` search pairs),
`retrieve_chunks` returns at most `top_k` chunks, and every chunk's
`distance` field is taken from a pair of the search result.  All five fields
drug_name, drugbank_id, chunk_index, text and distance are present on every
element by construction of `Chunk`. -/
theorem retrieve_chunks_topk_and_fields (env : Env) (q : String) (k : Nat)
    (res : List Chunk)
    (hk : ∀ emb pairs, env.search emb k = .ok pairs → pairs.length ≤ k)
    (hres : retrieve_chunks env q k = .ok res) :
    res.length ≤ k ∧
      ∀ c ∈ res, ∃ emb pairs idx, _create_embedding env q = .ok emb ∧
        env.search emb k = .ok pairs ∧ (idx, c.distance) ∈ pairs := by
  unfold retrieve_chunks at hres
  cases hemb : _create_embedding env q with
  | error e =>
    simp only [hemb] at hres
    injection hres with hres
    subst hres
    exact ⟨Nat.zero_le k, by intro c hc; simp at hc⟩
  | ok emb =>
    simp only [hemb] at hres
    cases hs : env.search emb k with
    | error e =>
      simp only [hs] at hres
      exact Except.noConfusion hres
    | ok pairs =>
      simp only [hs] at hres
      injection hres with hres
      subst hres
      constructor
      · exact le_trans (projectRows_length_le env.metadata pairs) (hk emb pairs hs)
      · intro c hc
        obtain ⟨idx, dist, hmem, _, _, heq⟩ :=
          projectRows_mem_spec env.metadata pairs c hc
        have hdist : c.distance = dist := by rw [heq]; rfl
        exact ⟨emb, pairs, idx, rfl, hs, by rw [hdist]; exact hmem⟩

/-- Witness for C10 at the ten-row environment: the single surviving chunk is
within the `top_k = 3` bound and its distance comes from the search pairs. -/
theorem retrieve_chunks_topk_and_fields_witness :
    ([projectChunk sampleMeta 2 (2 : Rat)].length ≤ 3) ∧
      (∃ emb pairs idx, _create_embedding envRange "q" = .ok emb ∧
        envRange.search emb 3 = .ok pairs ∧
        (idx, (projectChunk sampleMeta 2 (2 : Rat)).distance) ∈ pairs) := by
  have h := retrieve_chunks_topk_and_fields envRange "q" 3
    [projectChunk sampleMeta 2 (2 : Rat)]
    (by
      intro emb pairs hp
      have hp' : (Except.ok [((15 : Int), (1 : Rat)), (2, 2)] :
          Except String (List (Int × Rat))) = Except.ok pairs := hp
      injection hp' with hpairs
      rw [← hpairs]
      decide)
    rfl
  exact ⟨h.1, h.2 _ (List.mem_singleton.mpr rfl)⟩

/-! Pipeline theorems. -/

/-- When every nearest-neighbor search call succeeds, `retrieve_chunks`
returns its ok-value `retrievedChunks`. -/
lemma retrieve_chunks_ok_of_search_ok (env : Env) (sq : String) (k : Nat)
    (h : ∀ emb k2, ∃ l, env.search emb k2 = .ok l) :
    retrieve_chunks env sq k = .ok (retrievedChunks env sq k) := by
  unfold retrievedChunks
  cases hemb : _create_embedding env sq with
  | error e => simp [retrieve_chunks, hemb]
  | ok emb =>
    obtain ⟨l, hl⟩ := h emb k
    simp [retrieve_chunks, hemb, hl]

/-- When every nearest-neighbor search call succeeds, the per-sub-question
loop produces exactly one trace entry per sub-question, in order. -/
lemma runSubQueries_ok_of_search_ok (env : Env) (k : Nat)
    (h : ∀ emb k2, ∃ l, env.search emb k2 = .ok l) :
    ∀ subs : List String,
      runSubQueries env k subs = .ok (subs.map (traceEntry env k)) := by
  intro subs
  induction subs with
  | nil => rfl
  | cons sq rest ih =>
    unfold runSubQueries
    rw [retrieve_chunks_ok_of_search_ok env sq k h, ih]
    rfl

/-- Counterexample for C1: with a working embedding and generation oracle but
a raising nearest-neighbor search, `query_pipeline` propagates the error to
its caller instead of absorbing it. -/
theorem query_pipeline_search_error_propagates :
    query_pipeline envSearchFail "q" 3 5 = .error "search failed" := rfl

/-- Claim C1 (amended): `query_pipeline` absorbs embedding and generation
failures and completes with a `(final_answer, trace)` pair whenever every
nearest-neighbor search call succeeds; a raising search, however, propagates
out of the pipeline. -/
theorem query_pipeline_total_of_search_ok (env : Env) (q : String) (k m : Nat)
    (h : ∀ emb k2, ∃ l, env.search emb k2 = .ok l) :
    ∃ fa tr, query_pipeline env q k m = .ok (fa, tr) := by
  refine ⟨combine_answers env q ((decompose_query env q m).map (traceEntry env k)),
    (decompose_query env q m).map (traceEntry env k), ?_⟩
  unfold query_pipeline
  rw [runSubQueries_ok_of_search_ok env k h (decompose_query env q m)]

/-- Witness for C1 (amended) at an environment where every external call
succeeds. -/
theorem query_pipeline_total_of_search_ok_witness :
    ∃ fa tr, query_pipeline envOk "what is ibuprofen" 3 5 = .ok (fa, tr) :=
  query_pipeline_total_of_search_ok envOk "what is ibuprofen" 3 5
    (fun _ _ => ⟨[], rfl⟩)

/-- Counterexample for C2: the decomposition yields two sub-questions, yet
the pipeline returns no trace at all — a search failure on the first
sub-question aborts the loop, so the remaining sub-question is skipped and no
final answer is computed. -/
theorem query_pipeline_no_trace_on_search_error :
    decompose_query envSearchFail "query about two drugs" 5 = ["a", "b"] ∧
    query_pipeline envSearchFail "query about two drugs" 3 5 =
      .error "search failed" := ⟨rfl, rfl⟩

/-- Claim C2 (amended): whenever every nearest-neighbor search call succeeds,
`query_pipeline` decomposes once and returns the trace with exactly one entry
`{sub_query, answer, chunks}` per sub-question, in decomposition order, with
the final answer combining that trace; per-sub-question generation failures
only degrade the entry to a sentinel answer and skip nothing. -/
theorem query_pipeline_trace_structure (env : Env) (q : String) (k m : Nat)
    (h : ∀ emb k2, ∃ l, env.search emb k2 = .ok l) :
    query_pipeline env q k m =
      .ok (combine_answers env q ((decompose_query env q m).map (traceEntry env k)),
        (decompose_query env q m).map (traceEntry env k)) := by
  unfold query_pipeline
  rw [runSubQueries_ok_of_search_ok env k h (decompose_query env q m)]

/-- Witness for C2 (amended) at an environment where every external call
succeeds. -/
theorem query_pipeline_trace_structure_witness :
    query_pipeline envOk "q" 3 5 =
      .ok (combine_answers envOk "q"
          ((decompose_query envOk "q" 5).map (traceEntry envOk 3)),
        (decompose_query envOk "q" 5).map (traceEntry envOk 3)) :=
  query_pipeline_trace_structure envOk "q" 3 5 (fun _ _ => ⟨[], rfl⟩)

end Mednix
